import Mathlib

/-!
Verification of the pluggable chain-synchronization orchestrator of the
trinity node (src/trinity/plugins/builtin/syncer/plugin.py).

The embedding models:
  * the strategy registry and mode resolution (`configure_parser`,
    `extract_modes`, `extract_strategy_types`, `on_ready`);
  * the resource-acquisition barrier (`handle_event` over a `PluginState`);
  * the shutdown coordinator (`handle_sync`).

A Python strategy instance carries no state beyond its class: its mode is
the classmethod `get_sync_mode` and its shutdown policy the property
`shutdown_node_on_halt`.  We therefore model an instance by its class,
as a `SyncStrategy` record whose `tid` field stands for Python class
identity (two distinct classes may report the same mode string, e.g. a
subclass inheriting `get_sync_mode`).  Resource payloads are opaque and
modelled as natural numbers.
-/

/-- Modelled from the spec: the mode-identifier constants `SYNC_FULL`,
`SYNC_FAST`, `SYNC_LIGHT` live in trinity/constants.py, which is not under
src/; spec section 3 lists the identifiers `full`, `fast`, `light`, `none`. -/
def SYNC_FULL : String := "full"

/-- Modelled from the spec: see `SYNC_FULL`. -/
def SYNC_FAST : String := "fast"

/-- Modelled from the spec: see `SYNC_FULL`. -/
def SYNC_LIGHT : String := "light"

/-- A sync strategy, identified by its Python class (`tid`), its
`get_sync_mode` classmethod result and its `shutdown_node_on_halt`
property (plugin.py lines 61-83; the base-class default is `true`). -/
structure SyncStrategy where
  tid : Nat
  get_sync_mode : String
  shutdown_node_on_halt : Bool
deriving DecidableEq

/-- `NoopSyncStrategy` (plugin.py lines 86-103): mode `'none'`, overrides
`shutdown_node_on_halt` to `false`. -/
def NoopSyncStrategy : SyncStrategy := ⟨0, "none", false⟩

/-- `FullSyncStrategy` (plugin.py lines 106-127): mode `SYNC_FULL`,
inherits `shutdown_node_on_halt = true`. -/
def FullSyncStrategy : SyncStrategy := ⟨1, SYNC_FULL, true⟩

/-- `FastThenFullSyncStrategy` (plugin.py lines 130-151). -/
def FastThenFullSyncStrategy : SyncStrategy := ⟨2, SYNC_FAST, true⟩

/-- `LightSyncStrategy` (plugin.py lines 154-174). -/
def LightSyncStrategy : SyncStrategy := ⟨3, SYNC_LIGHT, true⟩

/-- `SyncerPlugin.extract_modes` (plugin.py lines 211-214): the tuple of
each registered strategy's `get_sync_mode()`. -/
def extract_modes (strategies : List SyncStrategy) : List String :=
  strategies.map SyncStrategy.get_sync_mode

/-- `SyncerPlugin.extract_strategy_types` (plugin.py lines 216-219): the
tuple of `type(strategy)` for each registered strategy.  An instance is
modelled by its class, so this is the list itself. -/
def extract_strategy_types (strategies : List SyncStrategy) : List SyncStrategy :=
  strategies

/-- The observable result of `configure_parser`: the `--sync-mode` CLI
choice list and its default value (plugin.py lines 203-209). -/
structure ParserConfig where
  choices : List String
  defaultMode : String
deriving DecidableEq

/-- `SyncerPlugin.configure_parser` (plugin.py lines 198-209): raises
`ValidationError` when the default strategy is not among the registered
strategy types, otherwise exposes the choice list and default mode. -/
def configureParser (strategies : List SyncStrategy) (default_strategy : SyncStrategy) :
    Except String ParserConfig :=
  if default_strategy ∉ extract_strategy_types strategies then
    .error "Default strategy not in strategies"
  else
    .ok ⟨extract_modes strategies, default_strategy.get_sync_mode⟩

/-- Whether `configure_parser` completes without raising. -/
def configure_succeeds (strategies : List SyncStrategy) (default_strategy : SyncStrategy) :
    Bool :=
  match configureParser strategies default_strategy with
  | .ok _ => true
  | .error _ => false

/-- Python's `str.lower()` as applied to the ASCII mode strings:
lower-case each character of the string. -/
def py_lower (s : String) : String :=
  ⟨s.data.map Char.toLower⟩

/-- The loop of `SyncerPlugin.on_ready` (plugin.py lines 222-228):
walks the registered strategies, case-insensitively comparing each mode
against the configured `--sync-mode`; a second match raises the
ambiguity `ValidationError`. -/
def resolve_loop (sync_mode : String) :
    Option SyncStrategy → List SyncStrategy → Except String (Option SyncStrategy)
  | active, [] => .ok active
  | active, strategy :: rest =>
    if py_lower strategy.get_sync_mode == py_lower sync_mode then
      match active with
      | some _ => .error "Ambiguous sync strategy"
      | none => resolve_loop sync_mode (some strategy) rest
    else
      resolve_loop sync_mode active rest

/-- The observable outcome of `on_ready`: the active strategy, whether
the plugin subscribed to `ResourceAvailableEvent`, and whether the
unmatched-mode warning was logged. -/
structure OnReadyResult where
  active_strategy : Option SyncStrategy
  subscribed : Bool
  warned : Bool
deriving DecidableEq

/-- `SyncerPlugin.on_ready` (plugin.py lines 221-234): resolve the mode;
with no match, log a warning and return without subscribing; otherwise
subscribe `handle_event` to resource-availability events. -/
def on_ready (strategies : List SyncStrategy) (sync_mode : String) :
    Except String OnReadyResult :=
  match resolve_loop sync_mode none strategies with
  | .error e => .error e
  | .ok none => .ok ⟨none, false, true⟩
  | .ok (some strategy) => .ok ⟨some strategy, true, false⟩

/-- An exception terminating a strategy's sync coroutine: cooperative
cancellation or an error raised inside the sync algorithm. -/
inductive SyncError where
  | cancelled
  | failure
deriving DecidableEq

/-- How `await active_strategy.sync(...)` terminates: normal return, or
an exception propagating out of the awaited coroutine. -/
inductive SyncOutcome where
  | completed
  | raised (e : SyncError)
deriving DecidableEq

/-- The observable behaviour of one `handle_sync` run: the shutdown
requests emitted on the event bus (their reason strings) and how the
`handle_sync` coroutine itself terminates. -/
structure HandleSyncResult where
  shutdown_requests : List String
  outcome : SyncOutcome
deriving DecidableEq

/-- `SyncerPlugin.handle_sync` (plugin.py lines 250-261): awaits the
active strategy's `sync`; an exception from the await propagates (there
is no try/except), skipping the rest of the body; on normal return,
`request_shutdown` is emitted iff `shutdown_node_on_halt`. -/
def handle_sync (strategy : SyncStrategy) (sync_result : SyncOutcome) : HandleSyncResult :=
  match sync_result with
  | .raised e => ⟨[], .raised e⟩
  | .completed =>
    if strategy.shutdown_node_on_halt then
      ⟨["Sync ended unexpectedly"], .completed⟩
    else
      ⟨[], .completed⟩

/-- A strategy's `sync` body as observed from outside: the log lines it
writes and how it terminates. -/
structure SyncRun where
  log : List String
  outcome : SyncOutcome
deriving DecidableEq

/-- `NoopSyncStrategy.sync` (plugin.py lines 96-103): logs one line
(with the mode interpolated) and returns without constructing or running
any syncer. -/
def noop_sync : SyncRun :=
  ⟨["Node running without sync (--sync-mode=none)"], .completed⟩

/-- A `ResourceAvailableEvent` as discriminated by `handle_event`
(plugin.py lines 236-242): a `BaseChainPeerPool` subclass carries the
pool/token pair, `BaseManager` the db manager, `BaseChain` the chain
handle; any other resource type matches no branch. -/
inductive ResourceEvent where
  | peer_pool_resource (pool : Nat) (token : Nat)
  | db_manager_resource (manager : Nat)
  | chain_resource (chain_handle : Nat)
  | other_resource (resource : Nat)
deriving DecidableEq

/-- The orchestrator's mutable fields (plugin.py lines 178-183) plus the
launch bookkeeping of the (spec-modelled) `start`. -/
structure PluginState where
  peer_pool : Option Nat
  cancel_token : Option Nat
  db_manager : Option Nat
  chain : Option Nat
  active_strategy : Option SyncStrategy
  launched : Bool
  launch_count : Nat
deriving DecidableEq

/-- Modelled from the spec: `BasePlugin.start` is defined in
trinity/extensibility/plugin.py, which is not under src/.  Spec section
4.2: the launch transition "must fire exactly once per node run;
redundant post-launch notifications must be tolerated without
re-triggering or crashing", so `start` schedules `handle_sync` (via
`do_start`, plugin.py lines 247-248) only on its first call. -/
def start (s : PluginState) : PluginState :=
  if s.launched then s
  else { s with launched := true, launch_count := s.launch_count + 1 }

/-- `SyncerPlugin.handle_event` (plugin.py lines 236-245): update the
field selected by the event's resource type, then — whatever the event
was — call `start` when the peer pool, db manager and chain are all
non-`None`. -/
def handle_event (s : PluginState) (event : ResourceEvent) : PluginState :=
  let s' :=
    match event with
    | .peer_pool_resource pool token =>
      { s with peer_pool := some pool, cancel_token := some token }
    | .db_manager_resource manager => { s with db_manager := some manager }
    | .chain_resource c => { s with chain := some c }
    | .other_resource _ => s
  if s'.peer_pool.isSome && s'.db_manager.isSome && s'.chain.isSome then
    start s'
  else
    s'

/-- The orchestrator's state right after a successful `on_ready`: an
active strategy is set, no resource has arrived, nothing launched. -/
def initial_state (strategy : SyncStrategy) : PluginState :=
  ⟨none, none, none, none, some strategy, false, 0⟩

/-- Deliver a list of resource-availability notifications in order. -/
def deliver_all (s : PluginState) (events : List ResourceEvent) : PluginState :=
  events.foldl handle_event s

/-- States reachable from activation by notification deliveries. -/
inductive Reachable (strategy : SyncStrategy) : PluginState → Prop where
  | init : Reachable strategy (initial_state strategy)
  | step (s : PluginState) (event : ResourceEvent) :
      Reachable strategy s → Reachable strategy (handle_event s event)

/-! ### Helper lemmas about `start` -/

@[simp] theorem start_peer_pool (s : PluginState) : (start s).peer_pool = s.peer_pool := by
  unfold start; split <;> rfl

@[simp] theorem start_cancel_token (s : PluginState) :
    (start s).cancel_token = s.cancel_token := by
  unfold start; split <;> rfl

@[simp] theorem start_db_manager (s : PluginState) : (start s).db_manager = s.db_manager := by
  unfold start; split <;> rfl

@[simp] theorem start_chain (s : PluginState) : (start s).chain = s.chain := by
  unfold start; split <;> rfl

@[simp] theorem start_active_strategy (s : PluginState) :
    (start s).active_strategy = s.active_strategy := by
  unfold start; split <;> rfl

@[simp] theorem start_launched (s : PluginState) : (start s).launched = true := by
  unfold start; split
  · assumption
  · rfl

/-! ### Claims -/

/-- C1: with a strategy active, delivering the three
resource-availability notifications in any of the 6 relative orders
launches the sync operation exactly once, immediately after the third
delivery (the launch count is still 0 after any one or two of them);
any further notification delivered after the launch, a repeated
peer-pool notification included, leaves the launch count at one. -/
theorem c1_barrier_launches_exactly_once (strategy : SyncStrategy) (p t m c : Nat) :
    ((deliver_all (initial_state strategy) [.peer_pool_resource p t]).launch_count = 0
      ∧ (deliver_all (initial_state strategy) [.db_manager_resource m]).launch_count = 0
      ∧ (deliver_all (initial_state strategy) [.chain_resource c]).launch_count = 0)
    ∧ ((deliver_all (initial_state strategy)
          [.peer_pool_resource p t, .db_manager_resource m]).launch_count = 0
      ∧ (deliver_all (initial_state strategy)
          [.peer_pool_resource p t, .chain_resource c]).launch_count = 0
      ∧ (deliver_all (initial_state strategy)
          [.db_manager_resource m, .peer_pool_resource p t]).launch_count = 0
      ∧ (deliver_all (initial_state strategy)
          [.db_manager_resource m, .chain_resource c]).launch_count = 0
      ∧ (deliver_all (initial_state strategy)
          [.chain_resource c, .peer_pool_resource p t]).launch_count = 0
      ∧ (deliver_all (initial_state strategy)
          [.chain_resource c, .db_manager_resource m]).launch_count = 0)
    ∧ ((deliver_all (initial_state strategy)
          [.peer_pool_resource p t, .db_manager_resource m, .chain_resource c]).launch_count = 1
      ∧ (deliver_all (initial_state strategy)
          [.peer_pool_resource p t, .chain_resource c, .db_manager_resource m]).launch_count = 1
      ∧ (deliver_all (initial_state strategy)
          [.db_manager_resource m, .peer_pool_resource p t, .chain_resource c]).launch_count = 1
      ∧ (deliver_all (initial_state strategy)
          [.db_manager_resource m, .chain_resource c, .peer_pool_resource p t]).launch_count = 1
      ∧ (deliver_all (initial_state strategy)
          [.chain_resource c, .peer_pool_resource p t, .db_manager_resource m]).launch_count = 1
      ∧ (deliver_all (initial_state strategy)
          [.chain_resource c, .db_manager_resource m, .peer_pool_resource p t]).launch_count = 1)
    ∧ (∀ event : ResourceEvent,
        (handle_event
          (deliver_all (initial_state strategy)
            [.peer_pool_resource p t, .db_manager_resource m, .chain_resource c])
          event).launch_count = 1) := by
  refine ⟨⟨rfl, rfl, rfl⟩, ⟨rfl, rfl, rfl, rfl, rfl, rfl⟩,
    ⟨rfl, rfl, rfl, rfl, rfl, rfl⟩, ?_⟩
  intro event
  cases event <;> rfl

/-- C2 counterexample: the full strategy has `shutdown_node_on_halt =
true`, yet when its sync operation terminates by raising (an error from
the sync algorithm, or cancellation), `handle_sync` emits no
shutdown-request event at all — the exception aborts `handle_sync`
before the shutdown check — contradicting the claim that every
termination is followed by exactly one shutdown request. -/
theorem c2_counterexample :
    FullSyncStrategy.shutdown_node_on_halt = true
    ∧ (handle_sync FullSyncStrategy (SyncOutcome.raised SyncError.failure)).shutdown_requests
        = []
    ∧ (handle_sync FullSyncStrategy (SyncOutcome.raised SyncError.cancelled)).shutdown_requests
        = [] :=
  ⟨rfl, rfl, rfl⟩

/-- C2 amended: for each of the full, fast-then-full and light
strategies, a normal completion of the sync operation is followed by
exactly one shutdown request, whose reason string is non-empty; a
termination by exception (error or cancellation) emits no shutdown
request and propagates the exception unchanged out of `handle_sync`. -/
theorem c2_shutdown_request_iff_normal_completion (sync_result : SyncOutcome) :
    handle_sync FullSyncStrategy sync_result
      = ⟨match sync_result with
         | .completed => ["Sync ended unexpectedly"]
         | .raised _ => [],
         sync_result⟩
    ∧ handle_sync FastThenFullSyncStrategy sync_result
      = ⟨match sync_result with
         | .completed => ["Sync ended unexpectedly"]
         | .raised _ => [],
         sync_result⟩
    ∧ handle_sync LightSyncStrategy sync_result
      = ⟨match sync_result with
         | .completed => ["Sync ended unexpectedly"]
         | .raised _ => [],
         sync_result⟩
    ∧ "Sync ended unexpectedly" ≠ "" := by
  refine ⟨?_, ?_, ?_, by decide⟩ <;> cases sync_result <;> rfl

/-- C6: the no-op strategy's sync operation only logs and returns
normally, running no synchronization algorithm; its
`shutdown_node_on_halt` is `false`, so `handle_sync` emits no
shutdown-request event under any termination path. -/
theorem c6_noop_never_requests_shutdown :
    noop_sync.outcome = SyncOutcome.completed
    ∧ noop_sync.log ≠ []
    ∧ NoopSyncStrategy.shutdown_node_on_halt = false
    ∧ ∀ sync_result : SyncOutcome,
        (handle_sync NoopSyncStrategy sync_result).shutdown_requests = [] := by
  refine ⟨rfl, by decide, rfl, ?_⟩
  intro sync_result
  cases sync_result <;> rfl

/-- C8: once activation has fixed the active strategy, neither
notification handling (`handle_event`) nor the launch (`start`) ever
changes the `active_strategy` field, so one strategy instance stays
active for the whole run. -/
theorem c8_active_strategy_never_reassigned (s : PluginState) (event : ResourceEvent) :
    (handle_event s event).active_strategy = s.active_strategy
    ∧ (start s).active_strategy = s.active_strategy := by
  constructor
  · cases event <;> (unfold handle_event; dsimp only; split <;> simp)
  · exact start_active_strategy s

/-- C10: a resource-availability notification whose resource type is
none of the three recognized discriminators leaves all four resource
fields unchanged, yet the joint-readiness check is still evaluated
after it: the launched flag becomes the old flag or-ed with the
readiness of the (unchanged) three barrier fields. -/
theorem c10_unrecognized_resource_frame (s : PluginState) (v : Nat) :
    (handle_event s (.other_resource v)).peer_pool = s.peer_pool
    ∧ (handle_event s (.other_resource v)).cancel_token = s.cancel_token
    ∧ (handle_event s (.other_resource v)).db_manager = s.db_manager
    ∧ (handle_event s (.other_resource v)).chain = s.chain
    ∧ (handle_event s (.other_resource v)).launched
        = (s.launched || (s.peer_pool.isSome && s.db_manager.isSome && s.chain.isSome)) := by
  unfold handle_event
  dsimp only
  split <;> rename_i h <;> simp_all

/-- C3 counterexample: with one registered candidate of mode `"full"`
and a default strategy of a different class whose mode is also
`"full"`, the default's mode is present among the candidates' modes,
yet `configure_parser` raises — the source compares strategy types
(`extract_strategy_types`), not mode strings. -/
theorem c3_counterexample :
    configure_succeeds [⟨1, "full", true⟩] ⟨10, "full", true⟩ = false
    ∧ (⟨10, "full", true⟩ : SyncStrategy).get_sync_mode
        ∈ extract_modes [⟨1, "full", true⟩] := by
  constructor
  · decide
  · decide

/-- C3 amended: `configure_parser` fails iff the default strategy's
class is not among the candidates' classes; since a registered class
contributes its own mode, absence of the default's mode from the
candidates' modes still implies failure, but presence of the mode does
not guarantee success. -/
theorem c3_configure_checks_type_not_mode (strategies : List SyncStrategy)
    (default_strategy : SyncStrategy) :
    (configure_succeeds strategies default_strategy = true ↔ default_strategy ∈ strategies)
    ∧ (default_strategy.get_sync_mode ∉ extract_modes strategies →
        configure_succeeds strategies default_strategy = false) := by
  constructor
  · by_cases h : default_strategy ∈ strategies <;>
      simp [configure_succeeds, configureParser, extract_strategy_types, h]
  · intro hmode
    by_cases h : default_strategy ∈ strategies
    · exact absurd (List.mem_map_of_mem SyncStrategy.get_sync_mode h) hmode
    · simp [configure_succeeds, configureParser, extract_strategy_types, h]

/-- C3 witness: a concrete instantiation of the amended claim's
implication — with candidate modes `["full"]`, a default of mode
`"light"` is rejected. -/
theorem c3_witness :
    configure_succeeds [⟨1, "full", true⟩] ⟨3, "light", true⟩ = false :=
  (c3_configure_checks_type_not_mode [⟨1, "full", true⟩] ⟨3, "light", true⟩).2 (by decide)

/-- C7: whenever `configure_parser` succeeds, the exposed CLI choice
list is exactly the registered candidates' mode strings and the
reported default equals the default strategy's mode; concretely, for
candidates full and light with default full, configuration succeeds
with choices `["full", "light"]` and default `"full"`. -/
theorem c7_cli_choices_and_default :
    (∀ (strategies : List SyncStrategy) (default_strategy : SyncStrategy)
        (cfg : ParserConfig),
        configureParser strategies default_strategy = .ok cfg →
        cfg.choices = extract_modes strategies
          ∧ cfg.defaultMode = default_strategy.get_sync_mode)
    ∧ configureParser [⟨1, "full", true⟩, ⟨3, "light", true⟩] ⟨1, "full", true⟩
        = .ok ⟨["full", "light"], "full"⟩ := by
  constructor
  · intro strategies default_strategy cfg hok
    unfold configureParser at hok
    split at hok
    · exact absurd hok (by simp)
    · cases hok
      exact ⟨rfl, rfl⟩
  · have h : (⟨1, "full", true⟩ : SyncStrategy)
        ∈ extract_strategy_types [⟨1, "full", true⟩, ⟨3, "light", true⟩] := by decide
    simp [configureParser, h, extract_modes, SYNC_FULL]

/-- C7 witness: the general part of the claim applied at the concrete
scenario, its success hypothesis discharged by evaluation. -/
theorem c7_witness :
    (⟨["full", "light"], "full"⟩ : ParserConfig).choices
        = extract_modes [⟨1, "full", true⟩, ⟨3, "light", true⟩]
    ∧ (⟨["full", "light"], "full"⟩ : ParserConfig).defaultMode
        = (⟨1, "full", true⟩ : SyncStrategy).get_sync_mode :=
  c7_cli_choices_and_default.1 [⟨1, "full", true⟩, ⟨3, "light", true⟩]
    ⟨1, "full", true⟩ ⟨["full", "light"], "full"⟩ c7_cli_choices_and_default.2

/-- Once the `on_ready` loop holds a match, any further match raises
the ambiguity error. -/
theorem resolve_loop_some (sync_mode : String) (x : SyncStrategy)
    (l : List SyncStrategy) :
    resolve_loop sync_mode (some x) l =
      if l.filter (fun s => py_lower s.get_sync_mode == py_lower sync_mode) = [] then
        .ok (some x)
      else
        .error "Ambiguous sync strategy" := by
  induction l with
  | nil => simp [resolve_loop]
  | cons a rest ih =>
    by_cases h : (py_lower a.get_sync_mode == py_lower sync_mode) = true
    · simp [resolve_loop, h, List.filter_cons]
    · simp [resolve_loop, h, List.filter_cons, ih]

/-- The `on_ready` loop, started empty, is characterized by the
case-insensitive matches among the registered strategies. -/
theorem resolve_loop_none (sync_mode : String) (l : List SyncStrategy) :
    resolve_loop sync_mode none l =
      match l.filter (fun s => py_lower s.get_sync_mode == py_lower sync_mode) with
      | [] => .ok none
      | [s] => .ok (some s)
      | _ :: _ :: _ => .error "Ambiguous sync strategy" := by
  induction l with
  | nil => rfl
  | cons a rest ih =>
    by_cases h : (py_lower a.get_sync_mode == py_lower sync_mode) = true
    · have hstep : resolve_loop sync_mode none (a :: rest)
          = resolve_loop sync_mode (some a) rest := by
        simp [resolve_loop, h]
      rw [hstep, resolve_loop_some]
      cases hr : rest.filter (fun s => py_lower s.get_sync_mode == py_lower sync_mode) with
      | nil => simp [List.filter_cons, h, hr]
      | cons b bs => simp [List.filter_cons, h, hr]
    · simp [resolve_loop, h, List.filter_cons, ih]

/-- C4: resolving the configured mode selects the unique candidate
whose mode matches case-insensitively (zero matches: no active
strategy, the warning is logged and nothing is subscribed; two or more
matches: the ambiguity error is raised); concretely, configured mode
`"FULL"` against a candidate of mode `"full"` selects that candidate
and subscribes. -/
theorem c4_mode_resolution (strategies : List SyncStrategy) (sync_mode : String) :
    (on_ready strategies sync_mode =
      match strategies.filter
          (fun s => py_lower s.get_sync_mode == py_lower sync_mode) with
      | [] => .ok ⟨none, false, true⟩
      | [s] => .ok ⟨some s, true, false⟩
      | _ :: _ :: _ => .error "Ambiguous sync strategy")
    ∧ on_ready [⟨1, "full", true⟩] "FULL"
        = .ok ⟨some ⟨1, "full", true⟩, true, false⟩ := by
  constructor
  · unfold on_ready
    rw [resolve_loop_none]
    cases hr : strategies.filter
        (fun s => py_lower s.get_sync_mode == py_lower sync_mode) with
    | nil => rfl
    | cons b bs => cases bs <;> rfl
  · rfl

/-- C5: in every state reachable from activation by notification
deliveries, the sync operation has been launched only if the peer pool,
the data-store manager and the chain handle are all non-empty. -/
theorem c5_no_launch_before_ready (strategy : SyncStrategy) (s : PluginState)
    (h : Reachable strategy s) (hl : s.launched = true) :
    s.peer_pool.isSome = true ∧ s.db_manager.isSome = true ∧ s.chain.isSome = true := by
  revert hl
  induction h with
  | init => intro hl; simp [initial_state] at hl
  | step s0 event h0 ih =>
    cases event <;>
      (unfold handle_event; dsimp only; split <;> rename_i hcond <;> intro hl <;> simp_all)

/-- C5 witness: after the three deliveries the launched state is
reachable, and the invariant evaluates to true there. -/
theorem c5_witness :
    (handle_event (handle_event (handle_event (initial_state FullSyncStrategy)
        (.peer_pool_resource 7 8)) (.db_manager_resource 9))
        (.chain_resource 5)).peer_pool.isSome = true
    ∧ (handle_event (handle_event (handle_event (initial_state FullSyncStrategy)
        (.peer_pool_resource 7 8)) (.db_manager_resource 9))
        (.chain_resource 5)).db_manager.isSome = true
    ∧ (handle_event (handle_event (handle_event (initial_state FullSyncStrategy)
        (.peer_pool_resource 7 8)) (.db_manager_resource 9))
        (.chain_resource 5)).chain.isSome = true :=
  c5_no_launch_before_ready FullSyncStrategy _
    (Reachable.step _ _ (Reachable.step _ _ (Reachable.step _ _ Reachable.init))) rfl

/-- C9: in every reachable state the peer-pool field is populated iff
the cancellation-token field is (they are delivered as one pair by the
peer-pool notification), and no other notification kind ever modifies
either field. -/
theorem c9_peer_pool_and_token_paired :
    (∀ (strategy : SyncStrategy) (s : PluginState), Reachable strategy s →
        (s.peer_pool.isSome = true ↔ s.cancel_token.isSome = true))
    ∧ (∀ (s : PluginState) (v : Nat),
        (handle_event s (.db_manager_resource v)).peer_pool = s.peer_pool
        ∧ (handle_event s (.db_manager_resource v)).cancel_token = s.cancel_token
        ∧ (handle_event s (.chain_resource v)).peer_pool = s.peer_pool
        ∧ (handle_event s (.chain_resource v)).cancel_token = s.cancel_token
        ∧ (handle_event s (.other_resource v)).peer_pool = s.peer_pool
        ∧ (handle_event s (.other_resource v)).cancel_token = s.cancel_token) := by
  constructor
  · intro strategy s h
    induction h with
    | init => simp [initial_state]
    | step s0 event h0 ih =>
      cases event <;> (unfold handle_event; dsimp only; split <;> simp_all)
  · intro s v
    refine ⟨?_, ?_, ?_, ?_, ?_, ?_⟩ <;>
      (unfold handle_event; dsimp only; split <;> simp)

/-- C9 witness: the invariant applied at the reachable state produced
by one peer-pool notification. -/
theorem c9_witness :
    (handle_event (initial_state FullSyncStrategy)
        (.peer_pool_resource 4 6)).peer_pool.isSome = true
      ↔ (handle_event (initial_state FullSyncStrategy)
        (.peer_pool_resource 4 6)).cancel_token.isSome = true :=
  c9_peer_pool_and_token_paired.1 FullSyncStrategy _ (Reachable.step _ _ Reachable.init)
